import Mathlib

/-!
Verification of `api/query_commons.py` (FAForever/api): a shallow embedding
of the query-building helpers (`get_select_expressions`, `get_order_by`,
`get_limit`, `get_page_attributes`) and of the orchestrating `fetch_data`
routine, together with theorems about their behaviour.

Modelling conventions:
* Python dicts are ordered association lists `List (String × α)`; `d[k]`
  is first-match lookup, `d[k] = v` updates in place or appends, and
  `d.update(e)` folds `dict_set` over `e`.
* The flask request is just its parameter map (`request.values.get`).
* `int(...)` on a string is `py_int?` (returns `Option Int`); a `ValueError`
  is `none`.
* Exceptions become `Except`: `ApiException` for the validation errors of
  the module, plus a `keyError` case for the unguarded `item['id']` access
  in the id fix-up.
* The external collaborators of `fetch_data` (database driver, marshmallow
  schema, enricher callback) are function parameters; the executed SQL
  statements are logged in an explicit `DBState`.
-/

namespace QueryCommons

/-- Error codes used by `query_commons` (subset of `api.error.ErrorCode`). -/
inductive ErrorCode
  | QUERY_INVALID_SORT_FIELD
  | QUERY_INVALID_PAGE_SIZE
  | QUERY_INVALID_PAGE_NUMBER
deriving DecidableEq

/-- The single argument attached to an `Error`: in the Python code it is
either a parsed `int` (page size / page number bound violations) or the raw
string / column name. -/
inductive ErrorArg
  | intArg (n : Int)
  | strArg (s : String)
deriving DecidableEq

/-- `api.error.Error(code, *args)` with the one argument this module uses. -/
structure Error where
  code : ErrorCode
  arg : ErrorArg
deriving DecidableEq

/-- `api.error.ApiException([Error(...)])`. -/
structure ApiException where
  errors : List Error
deriving DecidableEq

/-- First-match lookup in an ordered association list (Python `d[k]` /
`k in d`). -/
def dict_get? {α : Type} (d : List (String × α)) (k : String) : Option α :=
  (d.find? (fun p => p.1 == k)).map Prod.snd

/-- Python `d[k] = v` on an ordered dict: update the existing entry in place,
or append a fresh one. -/
def dict_set {α : Type} (d : List (String × α)) (k : String) (v : α) :
    List (String × α) :=
  if (d.find? (fun p => p.1 == k)).isSome then
    d.map (fun p => if p.1 == k then (k, v) else p)
  else d ++ [(k, v)]

/-- Python `d.update(e)` on ordered dicts. -/
def dict_update {α : Type} (d e : List (String × α)) : List (String × α) :=
  e.foldl (fun acc p => dict_set acc p.1 p.2) d

/-- Splitting a character list on a separator; `split_chars sep []` is
`[[]]`, matching Python `''.split(sep) == ['']`. -/
def split_chars (sep : Char) : List Char → List (List Char)
  | [] => [[]]
  | c :: cs =>
    let r := split_chars sep cs
    if c == sep then [] :: r
    else
      match r with
      | t :: ts => (c :: t) :: ts
      | [] => [[c]]

/-- Python `s.split(sep)` for a one-character separator. -/
def py_split (s : String) (sep : Char) : List String :=
  (split_chars sep s.toList).map (fun l => String.mk l)

/-- ASCII decimal digit test. -/
def is_digit (c : Char) : Bool :=
  48 ≤ c.toNat && c.toNat ≤ 57

/-- Value of a (non-empty, all-digit) digit string. -/
def digits_to_nat (l : List Char) : Nat :=
  l.foldl (fun n c => n * 10 + (c.toNat - 48)) 0

/-- Parse an unsigned decimal numeral; `none` unless the input is a
non-empty string of digits. -/
def parse_nat? (l : List Char) : Option Nat :=
  if l ≠ [] ∧ l.all is_digit then some (digits_to_nat l) else none

/-- ASCII whitespace, as stripped by Python `int()`. -/
def is_space (c : Char) : Bool :=
  c == ' ' || c == '\t' || c == '\n' || c == '\r'

/-- Strip whitespace from both ends. -/
def trim_chars (l : List Char) : List Char :=
  ((l.dropWhile is_space).reverse.dropWhile is_space).reverse

/-- Model of Python `int(s)` on a string: surrounding whitespace stripped,
optional sign, decimal digits; `none` models `ValueError`. -/
def py_int? (s : String) : Option Int :=
  match trim_chars s.toList with
  | '-' :: rest => (parse_nat? rest).map (fun n => -(n : Int))
  | '+' :: rest => (parse_nat? rest).map (fun n => (n : Int))
  | t => (parse_nat? t).map (fun n => (n : Int))

/-- The flask request, reduced to its query-parameter map
(`request.values`). -/
structure Request where
  values : List (String × String)
deriving DecidableEq

/-- `request.values.get(k)` (no default). -/
def Request.get (r : Request) (k : String) : Option String :=
  dict_get? r.values k

/-- `get_select_expressions(fields, field_expression_dict)` from
`query_commons.py`: if `fields` is falsy every key of the map is used;
each field found in the map contributes `expr AS ` followed by the
backtick-quoted name; the fragments are joined with a comma.  The Python
argument may be `None` or `[]`; both are modelled by the empty list. -/
def get_select_expressions (fields : List String)
    (field_expression_dict : List (String × String)) : String :=
  let fields := if fields.isEmpty then field_expression_dict.map Prod.fst
    else fields
  let field_selects := fields.foldl (fun acc field =>
    match dict_get? field_expression_dict field with
    | some expr => acc ++ [expr ++ " AS `" ++ field ++ "`"]
    | none => acc) []
  String.intercalate ", " field_selects

/-- The token loop of `get_order_by`: skip falsy tokens and lone `-`,
strip the `-` sign for direction, and raise on the first column outside
the allow-list. -/
def get_order_by_go (valid_fields : List String) :
    List String → Except ApiException (List String)
  | [] => .ok []
  | expression :: rest =>
    if expression == "" || expression == "-" then
      get_order_by_go valid_fields rest
    else
      let order := match expression.toList with
        | '-' :: _ => "DESC"
        | _ => "ASC"
      let column := match expression.toList with
        | '-' :: cs => String.mk cs
        | _ => expression
      if valid_fields.contains column then
        match get_order_by_go valid_fields rest with
        | .ok tail => .ok (("`" ++ column ++ "` " ++ order) :: tail)
        | .error e => .error e
      else
        .error ⟨[⟨.QUERY_INVALID_SORT_FIELD, .strArg column⟩]⟩

/-- `get_order_by(sort_expression, valid_fields)` from `query_commons.py`. -/
def get_order_by (sort_expression : Option String)
    (valid_fields : List String) : Except ApiException String :=
  match sort_expression with
  | none => .ok ""
  | some s =>
    if s == "" then .ok ""
    else
      match get_order_by_go valid_fields (py_split s ',') with
      | .error e => .error e
      | .ok order_bys =>
        if order_bys.isEmpty then .ok ""
        else .ok ("ORDER BY " ++ String.intercalate ", " order_bys)

/-- `get_limit(page, limit)` from `query_commons.py`; the arguments reach it
as integers, on which Python `int()` is the identity. -/
def get_limit (page : Int) (limit : Int) : String :=
  "LIMIT " ++ toString ((page - 1) * limit) ++ ", " ++ toString limit

/-- The `page[size]` block of `get_page_attributes`: the default is the
integer `max_page_size`, on which `int` cannot fail; a present parameter is
a string that must parse and not exceed the maximum.  On the bound violation
the parsed integer is carried, on a parse failure the raw string. -/
def check_page_size (max_page_size : Int) (raw : Option String) :
    Except ApiException Int :=
  match raw with
  | none =>
    if max_page_size > max_page_size then
      .error ⟨[⟨.QUERY_INVALID_PAGE_SIZE, .intArg max_page_size⟩]⟩
    else .ok max_page_size
  | some s =>
    match py_int? s with
    | some page_size =>
      if page_size > max_page_size then
        .error ⟨[⟨.QUERY_INVALID_PAGE_SIZE, .intArg page_size⟩]⟩
      else .ok page_size
    | none => .error ⟨[⟨.QUERY_INVALID_PAGE_SIZE, .strArg s⟩]⟩

/-- The `page[number]` block of `get_page_attributes`: default `1`, a
present parameter must parse and be at least `1`. -/
def check_page_number (raw : Option String) : Except ApiException Int :=
  match raw with
  | none =>
    if (1 : Int) < 1 then .error ⟨[⟨.QUERY_INVALID_PAGE_NUMBER, .intArg 1⟩]⟩
    else .ok 1
  | some s =>
    match py_int? s with
    | some page =>
      if page < 1 then
        .error ⟨[⟨.QUERY_INVALID_PAGE_NUMBER, .intArg page⟩]⟩
      else .ok page
    | none => .error ⟨[⟨.QUERY_INVALID_PAGE_NUMBER, .strArg s⟩]⟩

/-- `get_page_attributes(max_page_size, request)` from `query_commons.py`:
validates `page[size]` first, then `page[number]`, and returns the pair
`(page, page_size)`. -/
def get_page_attributes (max_page_size : Int) (request : Request) :
    Except ApiException (Int × Int) := do
  let page_size ← check_page_size max_page_size (request.get "page[size]")
  let page ← check_page_number (request.get "page[number]")
  return (page, page_size)

/-- A row as returned by the `DictCursor`: field name to value. -/
abbrev Row := List (String × String)

/-- The bound query arguments (`args`); their content is irrelevant here. -/
abbrev Args := List (String × String)

/-- The observable database state: the SQL statements executed so far. -/
structure DBState where
  executed : List String
deriving DecidableEq

/-- One serialized resource object as produced by `schema.dump(...)`:
`item['id']` and `item['attributes']`, each possibly absent. -/
structure ResourceItem where
  id : Option String
  attributes : Option (List (String × String))
deriving DecidableEq

/-- The serialized `data` member of the JSON-API document: a single resource
object or a list of them, matching the `many` flag. -/
inductive Document
  | single (item : ResourceItem)
  | many (items : List ResourceItem)
deriving DecidableEq

/-- Errors that can escape the modelled `fetch_data`: an `ApiException`
from validation, or the Python `KeyError` of the unguarded `item['id']`
access in the many-result fix-up. -/
inductive FetchError
  | api (e : ApiException)
  | keyError
deriving DecidableEq

/-- The field-sanitizing step of `fetch_data`: when the sparse-fieldset
parameter is truthy, keep its comma-separated names that are keys of the
merged select map, and for each name that is a nested map's name append all
of that nested map's keys; otherwise take every key of the merged map. -/
def sanitized_fields (requested_fields : Option String)
    (select_dict : List (String × String))
    (nested_expression_dict : List (String × List (String × String))) :
    List String :=
  match requested_fields with
  | some rf =>
    if rf == "" then select_dict.map Prod.fst
    else
      let fields := (py_split rf ',').filter
        (fun f => (dict_get? select_dict f).isSome)
      let nested_fields := (py_split rf ',').filter
        (fun f => (dict_get? nested_expression_dict f).isSome)
      nested_fields.foldl (fun acc nf =>
        acc ++ ((dict_get? nested_expression_dict nf).getD []).map Prod.fst)
        fields
  | none => select_dict.map Prod.fst

/-- The WHERE assembly of `fetch_data`: `if where: where = "WHERE " + where`
followed by `if where_extension: where = where + " " + where_extension`. -/
def build_where (w : String) (where_extension : String) : String :=
  let w := if w == "" then w else "WHERE " ++ w
  if where_extension == "" then w else w ++ " " ++ where_extension

/-- The many-result branch of the id fix-up: iterate the resource list,
`break` at the first item without an `'attributes'` key (leaving it and
everything after it untouched), otherwise set `attributes['id']` to
`item['id']`; an item with attributes but without `'id'` raises `KeyError`
(modelled as `none`). -/
def fixup_many : List ResourceItem → Option (List ResourceItem)
  | [] => some []
  | item :: rest =>
    match item.attributes with
    | none => some (item :: rest)
    | some attrs =>
      match item.id with
      | none => none
      | some v =>
        (fixup_many rest).map
          (fun tail => { item with attributes := some (dict_set attrs "id" v) } :: tail)

/-- The single-result branch of the id fix-up: only when both `'id'` and
`'attributes'` are present is `attributes['id']` set. -/
def fixup_single (item : ResourceItem) : ResourceItem :=
  match item.id, item.attributes with
  | some v, some attrs =>
    { item with attributes := some (dict_set attrs "id" v) }
  | _, _ => item

/-- The post-serialization fix-up of `fetch_data`: guarded by `id_selected`
(whether `'id'` was in the sanitized field list before being force-added),
with the many/single branches above. -/
def id_fixup (id_selected : Bool) (doc : Document) :
    Except FetchError Document :=
  if id_selected then
    match doc with
    | .many items =>
      match fixup_many items with
      | some fixed => .ok (.many fixed)
      | none => .error .keyError
    | .single item => .ok (.single (fixup_single item))
  else .ok doc

/-- `fetch_data(...)` from `query_commons.py`.  External collaborators are
parameters: `dump_many`/`dump_one` stand for `schema.dump(result, many).data`
(the marshmallow serializer), `db` for the cursor's execute+fetch against the
connection, `enricher` for the optional per-row callback; `type_` is
`schema.Meta.type_`.  The executed statement is appended to the `DBState`
log at the point `cursor.execute` runs. -/
def fetch_data (type_ : String)
    (dump_many : List Row → List ResourceItem)
    (dump_one : Option Row → ResourceItem)
    (table : String)
    (root_select_expression_dict : List (String × String))
    (max_page_size : Int)
    (request : Request)
    (db : String → Option Args → List Row)
    (w : String) (where_extension : String)
    (args : Option Args)
    (many : Bool)
    (enricher : Option (Row → Row))
    (sort : Option String)
    (limit : Bool)
    (nested_expression_dict : List (String × List (String × String)))
    (st : DBState) : Except FetchError Document × DBState :=
  let requested_fields := request.get ("fields[" ++ type_ ++ "]")
  let sort := match sort with
    | none => request.get "sort"
    | some s => if s == "" then request.get "sort" else some s
  let select_dict := nested_expression_dict.foldl
    (fun acc p => dict_update acc p.2) root_select_expression_dict
  let fields0 := sanitized_fields requested_fields select_dict
    nested_expression_dict
  let id_selected := fields0.contains "id"
  let fields := if id_selected then fields0 else fields0 ++ ["id"]
  let select_expressions := get_select_expressions fields select_dict
  let clauses : Except ApiException (String × String) :=
    if many then do
      let (page, page_size) ← get_page_attributes max_page_size request
      let limit_expression := if limit then get_limit page page_size else ""
      let order_by_expression ← get_order_by sort fields
      return (limit_expression, order_by_expression)
    else .ok ("", "")
  match clauses with
  | .error e => (.error (.api e), st)
  | .ok (limit_expression, order_by_expression) =>
    let whereClause := build_where w where_extension
    let stmt := "SELECT " ++ select_expressions ++ " FROM " ++ table ++ " "
      ++ whereClause ++ " " ++ order_by_expression ++ " " ++ limit_expression
    let st := { st with executed := st.executed ++ [stmt] }
    let rows := db stmt args
    if many then
      let result := match enricher with
        | some f => rows.map f
        | none => rows
      let doc := Document.many (dump_many result)
      match id_fixup id_selected doc with
      | .ok fixed => (.ok fixed, st)
      | .error e => (.error e, st)
    else
      let result := rows.head?
      let result := match enricher, result with
        | some f, some r => some (f r)
        | _, r => r
      let doc := Document.single (dump_one result)
      match id_fixup id_selected doc with
      | .ok fixed => (.ok fixed, st)
      | .error e => (.error e, st)

/-- Spec-side description of the select list (§4.1, §8 of the spec): the
`expr AS name` entries for the requested fields that exist in the map, in
requested order, every map field when none were requested. -/
def spec_select_entries (fields : List String)
    (d : List (String × String)) : List String :=
  (if fields.isEmpty then d.map Prod.fst else fields).filterMap
    (fun f => (dict_get? d f).map (fun e => e ++ " AS `" ++ f ++ "`"))

/-- Spec-side token filter of the Sort Compiler: empty tokens and lone `-`
tokens are skipped. -/
def spec_keep_token (t : String) : Bool :=
  !(t == "" || t == "-")

/-- Spec-side column of a sort token: the token with its `-` sign
stripped. -/
def spec_sort_column (t : String) : String :=
  match t.toList with
  | '-' :: cs => String.mk cs
  | _ => t

/-- Spec-side direction of a sort token: DESC for a `-` sign, ASC
otherwise. -/
def spec_sort_dir (t : String) : String :=
  match t.toList with
  | '-' :: _ => "DESC"
  | _ => "ASC"

/-- Spec-side ORDER BY entry of a sort token. -/
def spec_sort_entry (t : String) : String :=
  "`" ++ spec_sort_column t ++ "` " ++ spec_sort_dir t

/-- Spec-side description of the Sort Compiler (§4.2, claim C5): split on
commas, drop empty and lone-`-` tokens, fail on the first surviving token
whose column is not allowed, otherwise list the columns in input order;
no surviving tokens means the empty fragment. -/
def spec_order_by (sort_expression : Option String)
    (valid_fields : List String) : Except ApiException String :=
  match sort_expression with
  | none => .ok ""
  | some s =>
    let toks := (py_split s ',').filter spec_keep_token
    match toks.find? (fun t => !(valid_fields.contains (spec_sort_column t))) with
    | some bad =>
      .error ⟨[⟨.QUERY_INVALID_SORT_FIELD, .strArg (spec_sort_column bad)⟩]⟩
    | none =>
      if toks.isEmpty then .ok ""
      else .ok ("ORDER BY " ++ String.intercalate ", " (toks.map spec_sort_entry))

/-! ## Theorems -/

/-- The select loop of `get_select_expressions` is the `filterMap` of the
entry builder over the field list. -/
theorem select_fold_eq (d : List (String × String)) (fs : List String)
    (acc : List String) :
    fs.foldl (fun acc field =>
      match dict_get? d field with
      | some expr => acc ++ [expr ++ " AS `" ++ field ++ "`"]
      | none => acc) acc
    = acc ++ fs.filterMap
        (fun f => (dict_get? d f).map (fun e => e ++ " AS `" ++ f ++ "`")) := by
  induction fs generalizing acc with
  | nil => simp
  | cons f rest ih =>
    simp only [List.foldl_cons, List.filterMap_cons]
    cases h : dict_get? d f <;> simp [h, ih]

/-- Claim C3: `get_select_expressions` returns the comma-joined
`expr AS name` fragments for exactly the requested fields present in the
expression map, in requested order, silently dropping unknown names; and
for an empty requested list it selects every field of the map in map
order. -/
theorem get_select_expressions_matches_spec (fields : List String)
    (d : List (String × String)) :
    get_select_expressions fields d =
      String.intercalate ", " (spec_select_entries fields d) := by
  simp only [get_select_expressions, spec_select_entries]
  cases hf : fields.isEmpty <;> simp [select_fold_eq]

/-- Claim C4, counterexample: requesting the same field twice yields its
`expr AS name` entry twice — the select list is not deduplicated. -/
theorem get_select_expressions_duplicate_entries :
    get_select_expressions ["id", "id"] [("id", "map.uid")] =
      "map.uid AS `id`, map.uid AS `id`" := by rfl

/-- Claim C4 as amended: `get_select_expressions` performs no
deduplication — every occurrence of a requested field that exists in the
map contributes its own `expr AS name` entry; in particular a field
requested twice appears twice. -/
theorem get_select_expressions_not_deduplicated
    (d : List (String × String)) (f e : String)
    (h : dict_get? d f = some e) :
    get_select_expressions [f, f] d =
      e ++ " AS `" ++ f ++ "`" ++ ", " ++ (e ++ " AS `" ++ f ++ "`") := by
  simp only [get_select_expressions, h, List.isEmpty_cons, Bool.false_eq_true,
    if_false, List.foldl_cons, List.foldl_nil, List.nil_append]
  rfl

/-- Witness for the amended claim C4 at a concrete input. -/
theorem get_select_expressions_not_deduplicated_witness :
    get_select_expressions ["id", "id"] [("id", "map.uid")] =
      "map.uid AS `id`" ++ ", " ++ "map.uid AS `id`" :=
  get_select_expressions_not_deduplicated [("id", "map.uid")] "id" "map.uid"
    (by rfl)

/-- Claim C6: `get_limit` produces the MySQL-style `LIMIT offset, count`
fragment with `offset = (page-1)*limit` and `count = limit`; in particular
page 2 with page size 10 gives `LIMIT 10, 10`. -/
theorem get_limit_spec :
    (∀ page lim : Int, get_limit page lim =
      "LIMIT " ++ toString ((page - 1) * lim) ++ ", " ++ toString lim) ∧
    get_limit 2 10 = "LIMIT 10, 10" :=
  ⟨fun _ _ => rfl, by rfl⟩

/-- The token loop of `get_order_by` equals the spec-side description:
error at the first surviving token whose column is not allowed, otherwise
the entry list of the surviving tokens in order. -/
theorem get_order_by_go_eq (valid : List String) (ts : List String) :
    get_order_by_go valid ts =
      match (ts.filter spec_keep_token).find?
          (fun t => !(valid.contains (spec_sort_column t))) with
      | some bad =>
        .error ⟨[⟨.QUERY_INVALID_SORT_FIELD, .strArg (spec_sort_column bad)⟩]⟩
      | none => .ok ((ts.filter spec_keep_token).map spec_sort_entry) := by
  induction ts with
  | nil => rfl
  | cons t rest ih =>
    by_cases hk : (t == "" || t == "-") = true
    · have hk2 : spec_keep_token t = false := by
        simp [spec_keep_token, hk]
      simp only [get_order_by_go, hk, if_true, List.filter_cons, hk2,
        Bool.false_eq_true, if_false]
      exact ih
    · have hk2 : spec_keep_token t = true := by
        simp [spec_keep_token]
        simpa using hk
      simp only [get_order_by_go, hk, Bool.false_eq_true, if_false,
        List.filter_cons, hk2, if_true]
      have hcol : (match t.toList with
          | '-' :: cs => String.mk cs
          | _ => t) = spec_sort_column t := rfl
      have hord : (match t.toList with
          | '-' :: _ => "DESC"
          | _ => "ASC") = spec_sort_dir t := rfl
      by_cases hc : valid.contains (spec_sort_column t) = true
      · rw [List.find?_cons_of_neg _ (by simpa using hc)]
        simp only [hcol, hord]
        rw [if_pos hc, ih]
        cases hfind : (rest.filter spec_keep_token).find?
            (fun u => !(valid.contains (spec_sort_column u))) with
        | none => simp [hfind, spec_sort_entry]
        | some bad => simp [hfind]
      · rw [List.find?_cons_of_pos _ (by simpa using hc)]
        simp only [hcol, hord]
        rw [if_neg hc]

/-- Claim C5: `get_order_by` behaves exactly as specified — split on
commas, skip empty and lone `-` tokens, raise `QUERY_INVALID_SORT_FIELD`
carrying the prefix-stripped column of the first surviving token outside
the allow-list, otherwise produce the ORDER BY fragment in input order
with ASC/DESC from the `-` prefix; a `None`/empty expression or one with
no surviving tokens yields the empty string without error. -/
theorem get_order_by_matches_spec (se : Option String) (valid : List String) :
    get_order_by se valid = spec_order_by se valid := by
  cases se with
  | none => rfl
  | some s =>
    by_cases hs : (s == "") = true
    · have : s = "" := by simpa using hs
      subst this
      rfl
    · simp only [get_order_by, spec_order_by, hs, Bool.false_eq_true, if_false]
      rw [get_order_by_go_eq]
      cases hfind : ((py_split s ',').filter spec_keep_token).find?
          (fun t => !(valid.contains (spec_sort_column t))) with
      | some bad => simp [hfind]
      | none =>
        simp only [hfind]
        cases htoks : (py_split s ',').filter spec_keep_token with
        | nil => simp
        | cons a as => simp

/-- Claim C7: `get_page_attributes` defaults to page 1 and the maximum
page size; it raises `QUERY_INVALID_PAGE_SIZE` carrying the raw value when
`page[size]` does not parse and carrying the parsed value when it exceeds
the maximum; it raises `QUERY_INVALID_PAGE_NUMBER` carrying the raw value
when `page[number]` does not parse and carrying the parsed value when it
is below 1; otherwise it returns `(page, page_size)`, and no upper bound
is enforced on the page number. -/
theorem get_page_attributes_spec (m : Int) :
    (get_page_attributes m (Request.mk []) = .ok (1, m)) ∧
    (∀ r s, r.get "page[size]" = some s → py_int? s = none →
      get_page_attributes m r =
        .error ⟨[⟨.QUERY_INVALID_PAGE_SIZE, .strArg s⟩]⟩) ∧
    (∀ r s n, r.get "page[size]" = some s → py_int? s = some n → n > m →
      get_page_attributes m r =
        .error ⟨[⟨.QUERY_INVALID_PAGE_SIZE, .intArg n⟩]⟩) ∧
    (∀ r ps s, check_page_size m (r.get "page[size]") = .ok ps →
      r.get "page[number]" = some s → py_int? s = none →
      get_page_attributes m r =
        .error ⟨[⟨.QUERY_INVALID_PAGE_NUMBER, .strArg s⟩]⟩) ∧
    (∀ r ps s n, check_page_size m (r.get "page[size]") = .ok ps →
      r.get "page[number]" = some s → py_int? s = some n → n < 1 →
      get_page_attributes m r =
        .error ⟨[⟨.QUERY_INVALID_PAGE_NUMBER, .intArg n⟩]⟩) ∧
    (∀ r ps s n, check_page_size m (r.get "page[size]") = .ok ps →
      r.get "page[number]" = some s → py_int? s = some n → 1 ≤ n →
      get_page_attributes m r = .ok (n, ps)) ∧
    (∀ r ps, check_page_size m (r.get "page[size]") = .ok ps →
      r.get "page[number]" = none →
      get_page_attributes m r = .ok (1, ps)) := by
  refine ⟨?_, ?_, ?_, ?_, ?_, ?_, ?_⟩
  · simp [get_page_attributes, check_page_size, check_page_number,
      Request.get, dict_get?, Bind.bind, Except.bind, pure, Except.pure]
  · intro r s h1 h2
    simp [get_page_attributes, check_page_size, h1, h2, Bind.bind,
      Except.bind]
  · intro r s n h1 h2 h3
    simp [get_page_attributes, check_page_size, h1, h2, h3, Bind.bind,
      Except.bind]
  · intro r ps s h1 h2 h3
    simp [get_page_attributes, check_page_number, h1, h2, h3, Bind.bind,
      Except.bind]
  · intro r ps s n h1 h2 h3 h4
    simp [get_page_attributes, check_page_number, h1, h2, h3, h4, Bind.bind,
      Except.bind]
  · intro r ps s n h1 h2 h3 h4
    simp [get_page_attributes, check_page_number, h1, h2, h3, Bind.bind,
      Except.bind, pure, Except.pure, show ¬(n < 1) by omega]
  · intro r ps h1 h2
    simp [get_page_attributes, check_page_number, h1, h2, Bind.bind,
      Except.bind, pure, Except.pure]

/-- Witness for claim C7: a request with `page[size]=50`, `page[number]=7`
under maximum 100 resolves to page 7 of size 50. -/
theorem get_page_attributes_spec_witness :
    get_page_attributes 100
      (Request.mk [("page[size]", "50"), ("page[number]", "7")]) =
      .ok (7, 50) :=
  (get_page_attributes_spec 100).2.2.2.2.2.1
    (Request.mk [("page[size]", "50"), ("page[number]", "7")]) 50 "7" 7
    (by rfl) (by rfl) (by rfl) (by omega)

/-- Claim C10: the WHERE keyword is prepended only when the caller's where
clause is non-empty, and the extension is appended — space-separated, with
no WHERE keyword of its own — whenever it is non-empty; concretely, a call
with an empty where clause and extension `x = 1` executes a statement in
which `x = 1` follows the table with no WHERE keyword. -/
theorem build_where_spec :
    (∀ w ext, build_where w ext =
      (if w == "" then "" else "WHERE " ++ w) ++
        (if ext == "" then "" else " " ++ ext)) ∧
    (fetch_data "t" (fun _ => []) (fun _ => ResourceItem.mk none none) "tbl"
        [("id", "t.id")] 10 (Request.mk []) (fun _ _ => []) "" "x = 1" none
        false none none true [] (DBState.mk [])).2.executed =
      ["SELECT t.id AS `id` FROM tbl  x = 1  "] := by
  constructor
  · intro w ext
    simp only [build_where]
    by_cases h1 : (w == "") = true <;> by_cases h2 : (ext == "") = true <;>
      simp_all [beq_iff_eq, String.append_assoc]
  · rfl

/-- The only error the id fix-up can produce is the modelled `KeyError`;
it never produces an `ApiException`. -/
theorem id_fixup_error_is_keyError (b : Bool) (doc : Document)
    (e : FetchError) (h : id_fixup b doc = .error e) : e = .keyError := by
  simp only [id_fixup] at h
  split at h
  · split at h
    · split at h
      · cases h
      · cases h
        rfl
    · cases h
  · cases h

/-- Claim C1, counterexample: with `fields[map]=name` the client did not
request `id`, so it is force-included into the selection; the fix-up is
skipped (`id_selected` is false) and the attributes object of the returned
resource does NOT contain `id`. -/
theorem fetch_data_forced_id_missing_from_attributes :
    (fetch_data "map"
        (fun _ => [ResourceItem.mk (some "5") (some [("name", "x")])])
        (fun _ => ResourceItem.mk none none) "tbl"
        [("name", "t.name"), ("id", "t.id")] 10
        (Request.mk [("fields[map]", "name")])
        (fun _ _ => [[("name", "x"), ("id", "5")]]) "" "" none true none
        none true [] (DBState.mk [])).1 =
      .ok (.many [ResourceItem.mk (some "5") (some [("name", "x")])]) ∧
    dict_get? [("name", "x")] "id" = none :=
  ⟨by rfl, by rfl⟩

/-- Claim C1 as amended: the post-serialization fix-up copies `data.id`
into `data.attributes.id` only when `id` WAS explicitly requested
(`id_selected` true); when `id` was force-included (`id_selected` false)
the serialized document is returned unchanged, so `id` appears in the
final attributes only if the serializer put it there. -/
theorem id_fixup_only_when_id_selected :
    (∀ doc : Document, id_fixup false doc = .ok doc) ∧
    (∀ (item : ResourceItem) (v : String) (attrs : List (String × String)),
      item.id = some v → item.attributes = some attrs →
      id_fixup true (.single item) =
        .ok (.single ⟨some v, some (dict_set attrs "id" v)⟩)) ∧
    (∀ (item : ResourceItem) (v : String) (attrs : List (String × String))
        (rest fixed : List ResourceItem),
      item.id = some v → item.attributes = some attrs →
      fixup_many rest = some fixed →
      id_fixup true (.many (item :: rest)) =
        .ok (.many (⟨some v, some (dict_set attrs "id" v)⟩ :: fixed))) := by
  refine ⟨fun doc => rfl, ?_, ?_⟩
  · intro item v attrs hid hattrs
    cases item
    cases hid
    cases hattrs
    rfl
  · intro item v attrs rest fixed hid hattrs hrest
    cases item
    cases hid
    cases hattrs
    simp [id_fixup, fixup_many, hrest]

/-- Witness for the amended claim C1: a single resource with id and
attributes present gets `attributes.id` set when `id_selected` is true. -/
theorem id_fixup_only_when_id_selected_witness :
    id_fixup true (.single ⟨some "5", some [("name", "x")]⟩) =
      .ok (.single ⟨some "5", some [("name", "x"), ("id", "5")]⟩) :=
  id_fixup_only_when_id_selected.2.1 ⟨some "5", some [("name", "x")]⟩ "5"
    [("name", "x")] rfl rfl

/-- Claim C2, counterexample: in the many-result fix-up a resource lacking
`attributes` does not merely skip itself — the loop `break`s, and the later
resource that does have attributes is left without the id fix-up. -/
theorem fixup_many_break_leaves_later_items_unfixed :
    fixup_many [ResourceItem.mk (some "1") none,
      ResourceItem.mk (some "2") (some [("name", "x")])] =
      some [ResourceItem.mk (some "1") none,
        ResourceItem.mk (some "2") (some [("name", "x")])] ∧
    dict_get? [("name", "x")] "id" = none :=
  ⟨rfl, rfl⟩

/-- Claim C2 as amended: a resource lacking an attributes object
terminates the fix-up loop without error; it and every resource after it —
whether or not they have attributes — are left untouched, while the
resources before it are processed normally. -/
theorem fixup_many_stops_at_first_item_without_attributes
    (pre : List ResourceItem) (bad : ResourceItem)
    (rest : List ResourceItem) (hbad : bad.attributes = none) :
    fixup_many (pre ++ bad :: rest) =
      (fixup_many pre).map (fun fixed => fixed ++ bad :: rest) := by
  induction pre with
  | nil => simp [fixup_many, hbad]
  | cons it pre ih =>
    cases hattrs : it.attributes with
    | none => simp [fixup_many, hattrs]
    | some attrs =>
      cases hid : it.id with
      | none => simp [fixup_many, hattrs, hid]
      | some v =>
        simp only [List.cons_append, fixup_many, hattrs, hid, ih]
        cases hp : fixup_many pre <;> simp [hp, ih]

/-- Witness for the amended claim C2 at a concrete list. -/
theorem fixup_many_stops_at_first_item_without_attributes_witness :
    fixup_many ([ResourceItem.mk (some "1") (some [])] ++
        ResourceItem.mk (some "9") none ::
          [ResourceItem.mk (some "2") (some [("a", "b")])]) =
      (fixup_many [ResourceItem.mk (some "1") (some [])]).map
        (fun fixed => fixed ++ ResourceItem.mk (some "9") none ::
          [ResourceItem.mk (some "2") (some [("a", "b")])]) :=
  fixup_many_stops_at_first_item_without_attributes
    [ResourceItem.mk (some "1") (some [])] (ResourceItem.mk (some "9") none)
    [ResourceItem.mk (some "2") (some [("a", "b")])] rfl

/-- Claim C8: every validation failure of `fetch_data` (invalid sort
field, invalid page size, invalid page number — the only `ApiException`s
of the module) is raised before the database statement is executed: on
such an error the execution log is unchanged. -/
theorem fetch_data_validation_errors_before_execute
    (type_ : String) (dump_many : List Row → List ResourceItem)
    (dump_one : Option Row → ResourceItem) (table : String)
    (root : List (String × String)) (m : Int) (r : Request)
    (db : String → Option Args → List Row) (w ext : String)
    (args : Option Args) (many : Bool) (enricher : Option (Row → Row))
    (sort : Option String) (lim : Bool)
    (nested : List (String × List (String × String)))
    (st st2 : DBState) (e : ApiException)
    (h : fetch_data type_ dump_many dump_one table root m r db w ext args
      many enricher sort lim nested st = (.error (.api e), st2)) :
    st2 = st := by
  simp only [fetch_data] at h
  split at h
  · injection h with h1 h2
    exact h2.symm
  · split at h
    · split at h
      · injection h with h1 h2
        cases h1
      · rename_i heq
        injection h with h1 h2
        injection h1 with h3
        rw [id_fixup_error_is_keyError _ _ _ heq] at h3
        cases h3
    · split at h
      · injection h with h1 h2
        cases h1
      · rename_i heq
        injection h with h1 h2
        injection h1 with h3
        rw [id_fixup_error_is_keyError _ _ _ heq] at h3
        cases h3

/-- Witness for claim C8: a request whose sort column is not selectable
fails with `QUERY_INVALID_SORT_FIELD` and leaves the execution log exactly
as it was. -/
theorem fetch_data_validation_errors_before_execute_witness :
    fetch_data "t" (fun _ => []) (fun _ => ResourceItem.mk none none) "tbl"
        [("id", "t.id")] 10 (Request.mk [("sort", "bogus")])
        (fun _ _ => []) "" "" none true none none true []
        (DBState.mk ["prior"]) =
      (.error (.api ⟨[⟨.QUERY_INVALID_SORT_FIELD, .strArg "bogus"⟩]⟩),
        DBState.mk ["prior"]) ∧
    DBState.mk ["prior"] = DBState.mk ["prior"] :=
  ⟨by rfl,
    fetch_data_validation_errors_before_execute "t" (fun _ => [])
      (fun _ => ResourceItem.mk none none) "tbl" [("id", "t.id")] 10
      (Request.mk [("sort", "bogus")]) (fun _ _ => []) "" "" none true none
      none true [] (DBState.mk ["prior"]) (DBState.mk ["prior"])
      ⟨[⟨.QUERY_INVALID_SORT_FIELD, .strArg "bogus"⟩]⟩ (by rfl)⟩

/-- Claim C9, counterexample: with `many` true and the `limit` flag false,
`fetch_data` still validates the page parameters — `page[size]=11` against
a maximum of 10 raises `QUERY_INVALID_PAGE_SIZE` even though no LIMIT
fragment would be emitted. -/
theorem fetch_data_nolimit_still_validates_page :
    (fetch_data "t" (fun _ => []) (fun _ => ResourceItem.mk none none) "tbl"
        [("id", "t.id")] 10 (Request.mk [("page[size]", "11")])
        (fun _ _ => []) "" "" none true none none false []
        (DBState.mk [])).1 =
      .error (.api ⟨[⟨.QUERY_INVALID_PAGE_SIZE, .intArg 11⟩]⟩) :=
  by rfl

/-- Claim C9 as amended: when `many` is true and the `limit` flag is
false, pagination parameters are still read and validated — any
`get_page_attributes` error (invalid page size or page number) is raised
unchanged, before any statement is executed; only the LIMIT fragment is
omitted. -/
theorem fetch_data_nolimit_propagates_page_errors
    (type_ : String) (dump_many : List Row → List ResourceItem)
    (dump_one : Option Row → ResourceItem) (table : String)
    (root : List (String × String)) (m : Int) (r : Request)
    (db : String → Option Args → List Row) (w ext : String)
    (args : Option Args) (enricher : Option (Row → Row))
    (sort : Option String)
    (nested : List (String × List (String × String)))
    (st : DBState) (e : ApiException)
    (h : get_page_attributes m r = .error e) :
    fetch_data type_ dump_many dump_one table root m r db w ext args true
      enricher sort false nested st = (.error (.api e), st) := by
  simp [fetch_data, h, Bind.bind, Except.bind]

/-- Witness for the amended claim C9 at a concrete request. -/
theorem fetch_data_nolimit_propagates_page_errors_witness :
    fetch_data "t" (fun _ => []) (fun _ => ResourceItem.mk none none) "tbl"
        [("id", "t.id")] 10 (Request.mk [("page[size]", "11")])
        (fun _ _ => []) "" "" none true none none false []
        (DBState.mk []) =
      (.error (.api ⟨[⟨.QUERY_INVALID_PAGE_SIZE, .intArg 11⟩]⟩),
        DBState.mk []) :=
  fetch_data_nolimit_propagates_page_errors "t" (fun _ => [])
    (fun _ => ResourceItem.mk none none) "tbl" [("id", "t.id")] 10
    (Request.mk [("page[size]", "11")]) (fun _ _ => []) "" "" none none
    none [] (DBState.mk [])
    ⟨[⟨.QUERY_INVALID_PAGE_SIZE, .intArg 11⟩]⟩ (by rfl)

end QueryCommons
